import Mathlib

/-!
Shallow embedding of `argparse_prompt.py` (the `promptor` function, the
`PromptArgumentParserAction` class and the `PromptArgumentParser` facade).

Modelling conventions:
* A line of terminal text is a `List Char` (named `Str` below); Python's
  `str.strip` and `str.split(', ')` become `strip` and `splitCommaSpace`.
* The terminal input stream is an explicit list of lines handed to `promptor`;
  each `input()` call consumes one line.  A `none` result means the code is
  still blocked waiting for terminal input (the real code would block forever
  or until the operator types more).
* Everything written to the terminal (the `"name: "` prompts on stdout and the
  retry diagnostics on stderr) is collected as a trace of `TermEvent`s.
* Python exceptions inside a type converter are the `ConvResult.raised` value;
  `promptor`'s bare `except:` catches exactly that.
-/

namespace ArgparsePrompt

/-- A piece of Python text, represented as its characters. -/
abbrev Str := List Char

/-- Python `str.strip()`: drop whitespace from both ends. -/
def strip (cs : Str) : Str :=
  ((cs.dropWhile Char.isWhitespace).reverse.dropWhile Char.isWhitespace).reverse

/-- Python `str.split(', ')`: split on the literal two-character separator,
left to right, keeping empty pieces (`''.split(', ') == ['']`). -/
def splitCommaSpace : Str → List Str
  | [] => [[]]
  | ',' :: ' ' :: rest => [] :: splitCommaSpace rest
  | c :: rest =>
    match splitCommaSpace rest with
    | [] => [[c]]
    | p :: ps => (c :: p) :: ps

/-- A runtime value a type converter can produce (the Python values that occur
in this program: strings, integers and lists of values). -/
inductive Value where
  | str (s : Str)
  | int (n : Int)
  | list (vs : List Value)

/-- Python truthiness on `Value` (`''`, `0` and `[]` are falsy). -/
def falsy : Value → Bool
  | .str s => s.isEmpty
  | .int n => n = 0
  | .list vs => vs.isEmpty

/-- Outcome of applying a type converter to one piece of text: a value, a
raised exception, or blocking (the converter itself re-entered `promptor`
and is waiting on terminal input that this model does not provide). -/
inductive ConvResult where
  | ok (v : Value)
  | raised
  | blocked

/-- Outcome of converting a list of pieces element by element. -/
inductive ListConv where
  | ok (vs : List Value)
  | raised
  | blocked

/-- The list comprehension
`[type_converter(e) for e in inputted_value.split(', ')]`: elements are
converted left to right and the first exception aborts the whole list, so a
partially converted collection is never produced. -/
def convertElems (tc : Str → ConvResult) : List Str → ListConv
  | [] => .ok []
  | s :: rest =>
    match tc s with
    | .ok v =>
      match convertElems tc rest with
      | .ok vs => .ok (v :: vs)
      | .raised => .raised
      | .blocked => .blocked
    | .raised => .raised
    | .blocked => .blocked

/-- The conversion step of `promptor`'s `try:` block: element-wise over the
comma-space split in list mode, or one conversion of the whole string. -/
def convertValue (tc : Str → ConvResult) (useList : Bool) (v : Str) : ConvResult :=
  if useList then
    match convertElems tc (splitCommaSpace v) with
    | .ok vs => .ok (.list vs)
    | .raised => .raised
    | .blocked => .blocked
  else tc v

/-- One event on the terminal: a `"{name}: "` prompt written by `input`, or a
diagnostic line written to stderr. -/
inductive TermEvent where
  | prompt (name : String)
  | errLine (msg : String)
deriving DecidableEq

/-- `'Incorrect number of arguments provided. Need {n}. Try again.'` -/
def countDiag (n : Nat) : String :=
  "Incorrect number of arguments provided. Need " ++ toString n ++ ". Try again."

/-- `'Could not convert the inputted value to its specified type. Try again.'` -/
def convDiag : String :=
  "Could not convert the inputted value to its specified type. Try again."

/-- The `promptor` function, over an explicit stream of terminal lines.

The Python body is a `while not full_value:` loop around a
`while not inputted_value:` loop; no state survives from one iteration to the
next, so each consumed line runs exactly one pass of the checks, in source
order:
* `input(f'{parameter_name}: ').strip()` — emit the prompt, take a line, strip;
* `if use_list and len(split) != num_required_args:` — diagnostic, value dropped;
* `if not inputted_value and num_required_args == 0: return ''`;
* a still-falsy value re-enters the inner loop (next line);
* otherwise the `try:` conversion runs: an exception prints the retry
  diagnostic and `continue`s the outer loop, a falsy converted value fails
  `while not full_value` and loops, and a truthy converted value is returned.

An exhausted stream (or a `blocked` converter) models the program blocking on
`input()` after having written the prompt. -/
def promptor (parameterName : String) (tc : Str → ConvResult) (useList : Bool)
    (numRequiredArgs : Nat) : List Str → Option Value × List TermEvent
  | [] => (none, [.prompt parameterName])
  | line :: rest =>
    if useList ∧ (splitCommaSpace (strip line)).length ≠ numRequiredArgs then
      if numRequiredArgs = 0 then
        (some (.str []), [.prompt parameterName, .errLine (countDiag numRequiredArgs)])
      else
        ((promptor parameterName tc useList numRequiredArgs rest).1,
          .prompt parameterName :: .errLine (countDiag numRequiredArgs) ::
            (promptor parameterName tc useList numRequiredArgs rest).2)
    else if strip line = [] then
      if numRequiredArgs = 0 then
        (some (.str []), [.prompt parameterName])
      else
        ((promptor parameterName tc useList numRequiredArgs rest).1,
          .prompt parameterName :: (promptor parameterName tc useList numRequiredArgs rest).2)
    else
      match convertValue tc useList (strip line) with
      | .blocked => (none, [.prompt parameterName])
      | .raised =>
        ((promptor parameterName tc useList numRequiredArgs rest).1,
          .prompt parameterName :: .errLine convDiag ::
            (promptor parameterName tc useList numRequiredArgs rest).2)
      | .ok value =>
        if falsy value then
          ((promptor parameterName tc useList numRequiredArgs rest).1,
            .prompt parameterName :: (promptor parameterName tc useList numRequiredArgs rest).2)
        else (some value, [.prompt parameterName])

/-- A model of Python's `int` converter: optional sign, at least one digit,
raises (`ValueError`) on anything else. -/
def intConverter (s : Str) : ConvResult :=
  match strip s with
  | '-' :: ds => if ds ≠ [] ∧ ds.all Char.isDigit
      then .ok (.int (-(ds.foldl (fun a c => a * 10 + ((c.toNat : Int) - 48)) 0)))
      else .raised
  | ds => if ds ≠ [] ∧ ds.all Char.isDigit
      then .ok (.int (ds.foldl (fun a c => a * 10 + ((c.toNat : Int) - 48)) 0))
      else .raised

/-- The `nargs` values that occur: `'*'`, `'+'`, `'?'`, an integer, or absent
(Python `None`). -/
inductive NargsSpec where
  | star
  | plus
  | question
  | num (n : Nat)
  | unspecified
deriving DecidableEq

/-- `self._num_required_args` as computed by `PromptArgumentParserAction.__init__`:
`0` if `nargs in {'*', '?'}`, `1` if `nargs == '+'`, else `int(nargs or '1')`.
In the last branch Python's `or` takes `'1'` whenever `nargs` is falsy, which
covers both `None` (unspecified) and the integer `0`. -/
def numRequiredArgs : NargsSpec → Nat
  | .star => 0
  | .question => 0
  | .plus => 1
  | .num n => if n = 0 then 1 else n
  | .unspecified => 1

/-- `int(self._nargs or '1')` evaluated on its own: `None` and `0` are falsy
and give `int('1') = 1`; `int` of the strings `'*'`, `'+'`, `'?'` raises
`ValueError` (modelled as `.error ()`). -/
def pyIntOr1 : NargsSpec → Except Unit Nat
  | .num 0 => .ok 1
  | .num n => .ok n
  | .unspecified => .ok 1
  | .star => .error ()
  | .plus => .error ()
  | .question => .error ()

/-- The `use_list` expression of the crafted type lambda,
`self._nargs != '?' and self._nargs in {'*', '+'} or int(self._nargs or '1') > 1`,
with Python's short-circuiting: the `int(...)` operand is evaluated exactly
when the left disjunct is false, and its `ValueError` escapes. -/
def useListExpr (nargs : NargsSpec) : Except Unit Bool :=
  if nargs ≠ .question ∧ (nargs = .star ∨ nargs = .plus) then .ok true
  else
    match pyIntOr1 nargs with
    | .ok n => .ok (decide (n > 1))
    | .error e => .error e

/-- The converter that the crafted lambda actually hands to `promptor` as
`type_converter=kwargs.get('type', str)`.  By the time the lambda body runs,
`kwargs['type']` has already been overwritten with the lambda itself
(the assignment `kwargs['type'] = lambda ...` precedes every call), so the
lookup yields that very lambda, not the caller's converter: a non-empty
string is returned unchanged (`value if value`), and the empty string
re-enters `promptor`, which starts by blocking on a fresh `input()` read for
which this model supplies no further lines. -/
def promptorConverter (s : Str) : ConvResult :=
  if s = [] then .blocked else .ok (.str s)

/-- The crafted `kwargs['type']` lambda,
`lambda value: value if value else promptor(parameter_name=kwargs['dest'],
type_converter=kwargs.get('type', str), use_list=..., num_required_args=...)`:
a truthy (non-empty) string is returned as is; on the empty string the call's
keyword arguments are evaluated — the `use_list` expression may raise
`ValueError` (the `.error` case) — and then `promptor` runs on the given
input stream. -/
def craftedTypeLambda (nargs : NargsSpec) (dest : String) (inputs : List Str)
    (value : Str) : Except Unit (Option Value) :=
  if value ≠ [] then .ok (some (.str value))
  else
    match useListExpr nargs with
    | .error e => .error e
    | .ok ul => .ok (promptor dest promptorConverter ul (numRequiredArgs nargs) inputs).1

/-- What sits in an action's `type` attribute: Python `None`, some
caller-supplied converter object (identified opaquely), or the crafted
prompting lambda. -/
inductive TypeField where
  | noneVal
  | userConv (id : Nat)
  | promptWrapper
deriving DecidableEq

/-- One view of a slot's configuration: the `required`, `nargs`, `type` and
`default` attributes.  `required` is `none` when the keyword was absent
(Python `None`); `default` is `none` for Python `None` and `some s` for a
string default. -/
structure SlotConfig where
  required : Option Bool
  nargs : NargsSpec
  type : TypeField
  default : Option String
deriving DecidableEq

/-- The state of one `PromptArgumentParserAction`: its identity, the saved
user-provided configuration (`self._required` …), the saved crafted
configuration (`self.__required` …), the live attributes the parser actually
reads (`self.required` …), the `provided_restored` flag and
`self._num_required_args`. -/
structure PromptArgumentParserAction where
  argumentName : String
  dest : String
  providedConfig : SlotConfig
  craftedConfig : SlotConfig
  activeConfig : SlotConfig
  provided_restored : Bool
  numRequiredArgs : Nat
deriving DecidableEq

/-- `PromptArgumentParserAction.__init__`: records the argument name (first
option string, else `dest`), saves the user-provided configuration, computes
`self._num_required_args`, overwrites `nargs` with `'*'` when more than one
value is required and `'?'` otherwise, installs the prompting lambda as the
type, the empty string as the default and `False` as `required`, and saves
that crafted configuration; `super().__init__` then makes the crafted
configuration the live one. -/
def initAction (optionStrings : List String) (dest : String) (required : Option Bool)
    (nargs : NargsSpec) (type : TypeField) (dflt : Option String) :
    PromptArgumentParserAction :=
  { argumentName := (optionStrings.head?).getD dest
    dest := dest
    providedConfig := ⟨required, nargs, type, dflt⟩
    craftedConfig :=
      ⟨some false, if numRequiredArgs nargs > 1 then .star else .question,
        .promptWrapper, some ""⟩
    activeConfig :=
      ⟨some false, if numRequiredArgs nargs > 1 then .star else .question,
        .promptWrapper, some ""⟩
    provided_restored := false
    numRequiredArgs := numRequiredArgs nargs }

/-- `restore_provided`: copy the saved user-provided attributes into the live
ones (the flag `provided_restored` is not touched by the source). -/
def restore_provided (a : PromptArgumentParserAction) : PromptArgumentParserAction :=
  { a with activeConfig := a.providedConfig }

/-- `restore_crafted`: copy the saved crafted attributes into the live ones. -/
def restore_crafted (a : PromptArgumentParserAction) : PromptArgumentParserAction :=
  { a with activeConfig := a.craftedConfig }

/-- Python `len` on a `Value`: defined for strings and lists, a `TypeError`
(`none`) on integers. -/
def pyLen : Value → Option Nat
  | .str s => some s.length
  | .int _ => none
  | .list vs => some vs.length

/-- Outcome of `PromptArgumentParserAction.__call__`. -/
inductive CallOutcome where
  | exited (code : Nat) (printedUsage : Bool) (errMessage : String)
  | raisedTypeError
  | stored (action : PromptArgumentParserAction) (value : Value)

/-- `PromptArgumentParserAction.__call__`: when more than one value is
required and `len(result_value)` differs from it, print the usage, print
`f'{parser.prog}: error: argument {name} expects {n} arguments'` and
`exit(1)`; otherwise `restore_provided()` and store the value under `dest`
(the stored action and value stand for the `setattr` on the namespace). -/
def callAction (prog : String) (a : PromptArgumentParserAction) (resultValue : Value) :
    CallOutcome :=
  if a.numRequiredArgs > 1 then
    match pyLen resultValue with
    | none => .raisedTypeError
    | some l =>
      if l ≠ a.numRequiredArgs then
        .exited 1 true (prog ++ ": error: argument " ++ a.argumentName ++ " expects "
          ++ toString a.numRequiredArgs ++ " arguments")
      else .stored (restore_provided a) resultValue
  else .stored (restore_provided a) resultValue

/-- The first loop of `print_help`/`print_usage`:
`for action in self._actions: if isinstance(action, PromptArgumentParserAction)
and not action.provided_restored: action.restore_provided()`.  Plain
(non-prompting) actions are skipped by the `isinstance` test and untouched,
so only the prompting actions are modelled. -/
def restoreProvidedLoop (actions : List PromptArgumentParserAction) :
    List PromptArgumentParserAction :=
  actions.map fun a => if a.provided_restored = false then restore_provided a else a

/-- The second loop of `print_help`/`print_usage`, calling `restore_crafted()`
under the same guard. -/
def restoreCraftedLoop (actions : List PromptArgumentParserAction) :
    List PromptArgumentParserAction :=
  actions.map fun a => if a.provided_restored = false then restore_crafted a else a

/-- `PromptArgumentParser.print_help`: the first loop runs, then
`super().print_help(file)` — `renderCompletes` says whether it returns
normally — and only on normal return does the second loop run; an exception
(or `SystemExit`) from the renderer propagates past the second loop, leaving
the actions as the first loop set them (the `.error` case). -/
def printHelpModel (renderCompletes : Bool) (actions : List PromptArgumentParserAction) :
    Except (List PromptArgumentParserAction) (List PromptArgumentParserAction) :=
  if renderCompletes then .ok (restoreCraftedLoop (restoreProvidedLoop actions))
  else .error (restoreProvidedLoop actions)

/-- `PromptArgumentParser.print_usage`: textually identical to `print_help`
except for delegating to `super().print_usage`. -/
def printUsageModel (renderCompletes : Bool) (actions : List PromptArgumentParserAction) :
    Except (List PromptArgumentParserAction) (List PromptArgumentParserAction) :=
  if renderCompletes then .ok (restoreCraftedLoop (restoreProvidedLoop actions))
  else .error (restoreProvidedLoop actions)

/-- The condition in `PromptArgumentParser.add_argument` choosing the
prompting action:
`(kwargs.get('required') or not next(iter(args)).startswith('-')) and 'default' not in kwargs`.
`required` is the value of `kwargs.get('required')` (`none` when absent) and
`hasDefaultKey` is whether the `default` keyword is present at all. -/
def addArgumentUsesPromptAction (primaryName : String) (required : Option Bool)
    (hasDefaultKey : Bool) : Bool :=
  (required.getD false || !primaryName.startsWith "-") && !hasDefaultKey

/-- The Parser Facade rule in the spec's words: the declaration is bound to a
Prompting Argument Slot iff it carries the required marker, or its primary
name does not start with the option-flag marker `'-'`, and no explicit
default key is present. -/
def specBindsPromptingSlot (primaryName : String) (required : Option Bool)
    (hasDefaultKey : Bool) : Prop :=
  (required = some true ∨ ¬ primaryName.startsWith "-") ∧ hasDefaultKey = false

/-- The arity table of the spec, amended only at the integer `0`: `0` for
`'*'` and `'?'`, `1` for `'+'`, `n` for a positive integer `n`, and `1` for
unspecified and for the (falsy) integer `0`. -/
def specNumRequiredArgsAmended : NargsSpec → Nat
  | .star => 0
  | .question => 0
  | .plus => 1
  | .num n => if 1 ≤ n then n else 1
  | .unspecified => 1

/-- A concrete prompting action used in several concrete statements:
`add_argument('--x', required=True, nargs=2, type=int)` (the converter object
is opaque here). -/
def sampleAction : PromptArgumentParserAction :=
  initAction ["--x"] "x" (some true) (.num 2) (.userConv 0) none

/-! ## Helper lemmas -/

/-- Element-wise conversion preserves the element count: a fully converted
list has exactly one value per split piece. -/
theorem convertElems_ok_length (tc : Str → ConvResult) :
    ∀ (ss : List Str) (vs : List Value), convertElems tc ss = .ok vs →
      vs.length = ss.length := by
  intro ss
  induction ss with
  | nil => intro vs h; cases h; rfl
  | cons s rest ih =>
    intro vs h
    rw [convertElems] at h
    cases htc : tc s with
    | ok v =>
      rw [htc] at h
      cases hrec : convertElems tc rest with
      | ok ws =>
        rw [hrec] at h
        cases h
        simp [ih ws hrec]
      | raised => rw [hrec] at h; cases h
      | blocked => rw [hrec] at h; cases h
    | raised => rw [htc] at h; cases h
    | blocked => rw [htc] at h; cases h

/-- Every terminal trace of `promptor` begins with the `"{name}: "` prompt:
the first thing any invocation does is call `input(f'{parameter_name}: ')`. -/
theorem promptor_trace_starts_with_prompt (name : String) (tc : Str → ConvResult)
    (useList : Bool) (N : Nat) (inputs : List Str) :
    (promptor name tc useList N inputs).2.head? = some (.prompt name) := by
  cases inputs with
  | nil => rfl
  | cons line rest =>
    rw [promptor]
    split
    · split <;> rfl
    · split
      · split <;> rfl
      · split <;> first | rfl | (split <;> rfl)

/-! ## Claim theorems -/

/-- Claim C1 (code bug).  The claim says values produced via prompting are
converted by the slot's originally declared converter, so typing `3, 4` for a
`nargs=2`, `type=int` slot should give `[3, 4]`.  In the code,
`kwargs['type']` is overwritten with the prompting lambda before the lambda
ever runs, so `type_converter=kwargs.get('type', str)` passes that same
lambda to `promptor`, which therefore returns the split strings unchanged:
the crafted type applied to the empty (missing) value with input `"3, 4"`
yields the string list `['3', '4']` (first conjunct), while `promptor` run
with the caller's original `int` converter — what the claim describes —
yields `[3, 4]` (second conjunct), and the two values differ (third
conjunct). -/
theorem prompted_value_bypasses_original_converter :
    craftedTypeLambda (NargsSpec.num 2) "x" ["3, 4".data] [] =
      .ok (some (.list [.str "3".data, .str "4".data])) ∧
    (promptor "x" intConverter true 2 ["3, 4".data]).1 =
      some (.list [.int 3, .int 4]) ∧
    Value.list [.str "3".data, .str "4".data] ≠ Value.list [.int 3, .int 4] := by
  refine ⟨rfl, rfl, ?_⟩
  simp

/-- Claim C4 (confirmed).  `PromptArgumentParser.add_argument` installs the
prompting action exactly when the declaration carries the required marker or
its primary name does not start with `'-'`, and no explicit `default` key is
present. -/
theorem addArgument_wraps_iff_required_or_positional_and_no_default
    (primaryName : String) (required : Option Bool) (hasDefaultKey : Bool) :
    addArgumentUsesPromptAction primaryName required hasDefaultKey = true ↔
      specBindsPromptingSlot primaryName required hasDefaultKey := by
  cases required with
  | none => simp [addArgumentUsesPromptAction, specBindsPromptingSlot]
  | some b =>
    cases b <;> simp [addArgumentUsesPromptAction, specBindsPromptingSlot]

/-- Claim C5 (code bug).  For a slot declared with `nargs='?'` whose value is
absent, the claim says an empty line at the prompt yields the empty string.
In the code the crafted lambda first evaluates
`use_list = ... or int(self._nargs or '1') > 1`; for `nargs='?'` the left
disjunct is false and `int('?')` raises `ValueError`, so `promptor` is never
reached (first conjunct).  The engine-level half of the claim does hold of
`promptor` itself: with `num_required_args == 0` and an empty stripped line
it returns the empty-string sentinel at once, without touching the rest of
the input (second and third conjuncts). -/
theorem optional_single_slot_raises_before_prompting :
    craftedTypeLambda NargsSpec.question "x" [[]] [] = .error () ∧
    (promptor "x" intConverter false 0 [[], "later".data]).1 = some (.str []) ∧
    (promptor "x" intConverter false 0 [[], "later".data]).2 = [.prompt "x"] :=
  ⟨rfl, rfl, rfl⟩

/-- Claim C7, counterexample.  The claim says the constructor computes
`num_required_args = N` for an integer arity `N`; for the integer `0` the
code computes `int(0 or '1') = 1`, not `0`. -/
theorem numRequiredArgs_integer_zero_counterexample :
    (initAction ["--x"] "x" none (NargsSpec.num 0) TypeField.noneVal none).numRequiredArgs = 1 ∧
    (1 : Nat) ≠ 0 := by
  decide

/-- Claim C7 (corrected).  The slot constructor computes `num_required_args`
as `0` for `'*'` and `'?'`, `1` for `'+'`, `N` for a positive integer `N`,
and `1` for an unspecified arity and for the falsy integer `0` (the
amendment); it then installs `nargs='*'` when more than one value is
required and `'?'` otherwise, sets `required` to `False` and the default to
the empty string, and makes that crafted configuration live. -/
theorem initAction_computes_count_and_crafted_config (optionStrings : List String)
    (dest : String) (required : Option Bool) (nargs : NargsSpec) (type : TypeField)
    (dflt : Option String) :
    (initAction optionStrings dest required nargs type dflt).numRequiredArgs =
      specNumRequiredArgsAmended nargs ∧
    (initAction optionStrings dest required nargs type dflt).activeConfig =
      ⟨some false,
        if 1 < specNumRequiredArgsAmended nargs then NargsSpec.star else NargsSpec.question,
        TypeField.promptWrapper, some ""⟩ ∧
    (initAction optionStrings dest required nargs type dflt).craftedConfig =
      (initAction optionStrings dest required nargs type dflt).activeConfig := by
  have hnum : (initAction optionStrings dest required nargs type dflt).numRequiredArgs =
      specNumRequiredArgsAmended nargs := by
    cases nargs with
    | num n =>
      cases n <;> simp [initAction, numRequiredArgs, specNumRequiredArgsAmended]
    | star => rfl
    | plus => rfl
    | question => rfl
    | unspecified => rfl
  refine ⟨hnum, ?_, rfl⟩
  have : numRequiredArgs nargs = specNumRequiredArgsAmended nargs := hnum
  simp [initAction, this]

/-- Claim C9 (confirmed).  The crafted type lambda returns every non-empty
string unchanged (`value if value else ...`), so a value supplied on the
command line for a prompting slot is stored as the raw string and the
caller's declared converter is never applied to it. -/
theorem crafted_type_returns_nonempty_string_unchanged (nargs : NargsSpec)
    (dest : String) (inputs : List Str) (value : Str) (h : value ≠ []) :
    craftedTypeLambda nargs dest inputs value = .ok (some (.str value)) := by
  rw [craftedTypeLambda, if_pos h]

/-- Witness for C9 at the concrete command-line value `"abc"`. -/
theorem crafted_type_returns_nonempty_string_unchanged_witness :
    "abc".data ≠ [] ∧
    craftedTypeLambda NargsSpec.unspecified "x" [] "abc".data =
      .ok (some (.str "abc".data)) :=
  ⟨by decide,
    crafted_type_returns_nonempty_string_unchanged NargsSpec.unspecified "x" [] "abc".data
      (by decide)⟩

/-- Claim C6 (confirmed).  In list mode with `num_required_args = N ≥ 1`,
whenever `promptor` returns a value it is a list of exactly `N` converted
values: the inner loop only lets through an input whose comma-space split
has exactly `N` pieces, and the returned list has one fully converted value
per piece (so no partially converted collection is ever returned). -/
theorem promptor_list_mode_returns_exactly_n (name : String) (tc : Str → ConvResult)
    (N : Nat) (inputs : List Str) (v : Value) (hN : 1 ≤ N)
    (h : (promptor name tc true N inputs).1 = some v) :
    ∃ s l, v = Value.list l ∧ l.length = N ∧ (splitCommaSpace s).length = N ∧
      convertElems tc (splitCommaSpace s) = ListConv.ok l := by
  induction inputs with
  | nil => simp [promptor] at h
  | cons line rest ih =>
    rw [promptor] at h
    split at h
    · split at h
      next h0 => omega
      next h0 => exact ih h
    next hc =>
      split at h
      · split at h
        next h0 => omega
        next h0 => exact ih h
      next hempty =>
        split at h
        next hcv => simp at h
        next hcv => exact ih h
        next value hcv =>
          split at h
          next => exact ih h
          next hfv =>
            have hv : value = v := by simpa using h
            subst hv
            have hlen : (splitCommaSpace (strip line)).length = N := by
              by_contra hne
              exact hc ⟨rfl, hne⟩
            rw [convertValue, if_pos rfl] at hcv
            cases hce : convertElems tc (splitCommaSpace (strip line)) with
            | ok vs =>
              rw [hce] at hcv
              cases hcv
              exact ⟨strip line, vs, rfl,
                by rw [convertElems_ok_length tc _ vs hce, hlen], hlen, hce⟩
            | raised => rw [hce] at hcv; cases hcv
            | blocked => rw [hce] at hcv; cases hcv

/-- Witness for C6: with `N = 2` and input `"3, 4"` under the `int`
converter, `promptor` returns `[3, 4]`, and the theorem yields its shape. -/
theorem promptor_list_mode_returns_exactly_n_witness :
    1 ≤ 2 ∧ ∃ s l, Value.list [Value.int 3, Value.int 4] = Value.list l ∧
      l.length = 2 ∧ (splitCommaSpace s).length = 2 ∧
      convertElems intConverter (splitCommaSpace s) = ListConv.ok l :=
  ⟨by decide,
    promptor_list_mode_returns_exactly_n "x" intConverter 2 ["3, 4".data]
      (Value.list [.int 3, .int 4]) (by decide) rfl⟩

/-- Claim C8 (confirmed).  When the converter raises on the stripped input
(of any kind — the bare `except:` catches everything), `promptor` writes the
retry diagnostic to stderr and simply starts over on the remaining input:
the failure never propagates out, and the continuation's first terminal
event is a fresh `"{name}: "` prompt. -/
theorem promptor_conversion_failure_reprompts (name : String) (tc : Str → ConvResult)
    (useList : Bool) (N : Nat) (line : Str) (rest : List Str)
    (hcount : ¬ (useList = true ∧ (splitCommaSpace (strip line)).length ≠ N))
    (hne : strip line ≠ [])
    (hraise : convertValue tc useList (strip line) = ConvResult.raised) :
    promptor name tc useList N (line :: rest) =
      ((promptor name tc useList N rest).1,
        TermEvent.prompt name :: TermEvent.errLine convDiag ::
          (promptor name tc useList N rest).2) ∧
    (promptor name tc useList N rest).2.head? = some (TermEvent.prompt name) := by
  constructor
  · rw [promptor, if_neg hcount, if_neg hne, hraise]
  · exact promptor_trace_starts_with_prompt name tc useList N rest

/-- Witness for C8: invalid text `"abc"` under the `int` converter emits the
diagnostic and retries on the remaining input. -/
theorem promptor_conversion_failure_reprompts_witness :
    (¬ (false = true ∧ (splitCommaSpace (strip "abc".data)).length ≠ 1)) ∧
    strip "abc".data ≠ [] ∧
    promptor "x" intConverter false 1 ["abc".data, "5".data] =
      ((promptor "x" intConverter false 1 ["5".data]).1,
        TermEvent.prompt "x" :: TermEvent.errLine convDiag ::
          (promptor "x" intConverter false 1 ["5".data]).2) :=
  ⟨by simp, by decide,
    (promptor_conversion_failure_reprompts "x" intConverter false 1 "abc".data ["5".data]
      (by simp) (by decide) rfl).1⟩

/-- Claim C10 (confirmed).  In scalar mode the outer `while not full_value:`
loop refuses every falsy converted value (for example `int('0') == 0`), so
the only falsy value `promptor` can ever return is the empty-string sentinel,
and only when `num_required_args = 0`. -/
theorem promptor_scalar_never_returns_falsy (name : String) (tc : Str → ConvResult)
    (N : Nat) (inputs : List Str) (v : Value)
    (h : (promptor name tc false N inputs).1 = some v) (hf : falsy v = true) :
    v = Value.str [] ∧ N = 0 := by
  induction inputs with
  | nil => simp [promptor] at h
  | cons line rest ih =>
    rw [promptor] at h
    split at h
    next hc => simp at hc
    next hc =>
      split at h
      · split at h
        next h0 =>
          have hv : Value.str [] = v := by simpa using h
          exact ⟨hv.symm, h0⟩
        next h0 => exact ih h
      next hempty =>
        split at h
        next hcv => simp at h
        next hcv => exact ih h
        next value hcv =>
          split at h
          next => exact ih h
          next hfv =>
            have hv : value = v := by simpa using h
            subst hv
            exact absurd hf hfv

/-- Witness for C10: the sentinel case itself, `N = 0` with one empty line. -/
theorem promptor_scalar_never_returns_falsy_witness :
    falsy (Value.str []) = true ∧ Value.str [] = Value.str [] ∧ 0 = 0 :=
  ⟨rfl, promptor_scalar_never_returns_falsy "x" intConverter 0 [[]] (Value.str []) rfl rfl⟩

/-- Claim C2 (confirmed).  For a prompting slot requiring `N > 1` values,
invoking the action with a list whose length differs from `N` prints the
usage plus `'{prog}: error: argument {flag} expects {N} arguments'` and exits
with status 1; with a matching length it instead restores the caller-facing
configuration and stores the value under the destination.  Moreover every
exit the action can perform has status 1 and prints the usage first — the
only non-zero exit owned by the core (`promptor` and the facade contain no
exit at all, as their codomains show). -/
theorem callAction_arity_mismatch_exits_one (prog : String)
    (a : PromptArgumentParserAction) (vs : List Value)
    (hN : 1 < a.numRequiredArgs) :
    (vs.length ≠ a.numRequiredArgs →
      callAction prog a (.list vs) =
        .exited 1 true (prog ++ ": error: argument " ++ a.argumentName ++ " expects "
          ++ toString a.numRequiredArgs ++ " arguments")) ∧
    (vs.length = a.numRequiredArgs →
      callAction prog a (.list vs) = .stored (restore_provided a) (.list vs)) ∧
    (∀ w c u m, callAction prog a w = CallOutcome.exited c u m → c = 1 ∧ u = true) := by
  refine ⟨?_, ?_, ?_⟩
  · intro hne
    simp only [callAction, pyLen]
    rw [if_pos hN, if_pos hne]
  · intro heq
    simp only [callAction, pyLen]
    rw [if_pos hN, if_neg (by simp [heq])]
  · intro w c u m hcall
    rw [callAction] at hcall
    by_cases hN2 : a.numRequiredArgs > 1
    · rw [if_pos hN2] at hcall
      cases hp : pyLen w with
      | none =>
        simp only [hp] at hcall
        exact CallOutcome.noConfusion hcall
      | some l =>
        simp only [hp] at hcall
        by_cases hl : l ≠ a.numRequiredArgs
        · rw [if_pos hl] at hcall
          injection hcall with h1 h2 h3
          exact ⟨h1.symm, h2.symm⟩
        · rw [if_neg hl] at hcall
          exact CallOutcome.noConfusion hcall
    · rw [if_neg hN2] at hcall
      exact CallOutcome.noConfusion hcall

/-- Witness for C2: the slot `--x` with `nargs=2` invoked with a one-element
list exits with status 1 and the documented message. -/
theorem callAction_arity_mismatch_exits_one_witness :
    1 < sampleAction.numRequiredArgs ∧
    callAction "prog" sampleAction (.list [.str "a".data]) =
      .exited 1 true "prog: error: argument --x expects 2 arguments" :=
  ⟨by decide,
    (callAction_arity_mismatch_exits_one "prog" sampleAction [.str "a".data]
      (by decide)).1 (by decide)⟩

/-- Claim C3, counterexample.  The claim says the crafted configuration is
restored after help/usage rendering even when the renderer raises.  There is
no `try/finally` in the source: when `super().print_help` raises, the second
loop never runs, and the slot is left with the caller-provided configuration
active, which differs from the crafted one. -/
theorem printHelp_raising_render_skips_restore :
    printHelpModel false [sampleAction] = .error [restore_provided sampleAction] ∧
    (restore_provided sampleAction).activeConfig ≠
      (restore_provided sampleAction).craftedConfig := by
  exact ⟨rfl, by decide⟩

/-- One help/usage round on a fresh slot: `restore_crafted(restore_provided a)`
collapses to overwriting the live attributes with the crafted ones. -/
theorem swap_pair_self (b : PromptArgumentParserAction)
    (h2 : b.activeConfig = b.craftedConfig) :
    restore_crafted (restore_provided b) = b := by
  cases b with
  | mk an d pc cc ac pr n =>
    simp only [restore_provided, restore_crafted] at h2 ⊢
    simp [h2]

/-- After one completed render round, every slot (each had its
`provided_restored` flag unset) has the crafted configuration live again. -/
theorem round_mem (actions : List PromptArgumentParserAction)
    (hpr : ∀ a ∈ actions, a.provided_restored = false) :
    ∀ b ∈ restoreCraftedLoop (restoreProvidedLoop actions),
      b.provided_restored = false ∧ b.activeConfig = b.craftedConfig := by
  intro b hb
  simp only [restoreCraftedLoop, restoreProvidedLoop, List.map_map, List.mem_map] at hb
  obtain ⟨a, ha, hba⟩ := hb
  have hf := hpr a ha
  simp only [Function.comp_apply] at hba
  rw [if_pos hf, if_pos (show (restore_provided a).provided_restored = false from hf)] at hba
  subst hba
  exact ⟨hf, rfl⟩

/-- A render round is the identity on slots that already have the crafted
configuration live and the flag unset. -/
theorem round_fixed (actions : List PromptArgumentParserAction)
    (h : ∀ b ∈ actions, b.provided_restored = false ∧ b.activeConfig = b.craftedConfig) :
    restoreCraftedLoop (restoreProvidedLoop actions) = actions := by
  induction actions with
  | nil => rfl
  | cons a rest ih =>
    have ha1 := (h a (by simp)).1
    have ha2 := (h a (by simp)).2
    have hrest : ∀ b ∈ rest, b.provided_restored = false ∧ b.activeConfig = b.craftedConfig :=
      fun b hb => h b (by simp [hb])
    rw [show restoreProvidedLoop (a :: rest) =
        restore_provided a :: restoreProvidedLoop rest from by
      simp only [restoreProvidedLoop, List.map_cons]; rw [if_pos ha1]]
    rw [show restoreCraftedLoop (restore_provided a :: restoreProvidedLoop rest) =
        restore_crafted (restore_provided a) :: restoreCraftedLoop (restoreProvidedLoop rest)
        from by
      simp only [restoreCraftedLoop, List.map_cons]
      rw [if_pos (show (restore_provided a).provided_restored = false from ha1)]]
    rw [swap_pair_self a ha2, ih hrest]

/-- Claim C3 (corrected).  When a help/usage render completes normally and
every prompting slot had its `provided_restored` flag unset, every slot ends
with the crafted (installed) configuration active; running the render again
changes nothing, so any number of successive normal renders leaves the
installed configuration in place.  The original claim's "even when rendering
raises" part fails (see the counterexample): when the renderer raises, each
slot is left with the caller-provided configuration active instead.
`print_usage` behaves identically to `print_help`. -/
theorem printHelp_normal_completion_restores_crafted
    (actions actions' : List PromptArgumentParserAction)
    (hpr : ∀ a ∈ actions, a.provided_restored = false) :
    (printHelpModel true actions = .ok actions' →
      (∀ b ∈ actions', b.activeConfig = b.craftedConfig) ∧
      printHelpModel true actions' = .ok actions') ∧
    (printHelpModel false actions = .error actions' →
      ∀ b ∈ actions', b.activeConfig = b.providedConfig) ∧
    printUsageModel true actions = printHelpModel true actions ∧
    printUsageModel false actions = printHelpModel false actions := by
  refine ⟨?_, ?_, rfl, rfl⟩
  · intro hok
    rw [printHelpModel, if_pos rfl] at hok
    injection hok with hact
    subst hact
    refine ⟨fun b hb => (round_mem actions hpr b hb).2, ?_⟩
    rw [printHelpModel, if_pos rfl]
    exact congrArg Except.ok (round_fixed _ (round_mem actions hpr))
  · intro herr
    rw [printHelpModel, if_neg (by simp)] at herr
    injection herr with hact
    subst hact
    intro b hb
    simp only [restoreProvidedLoop, List.mem_map] at hb
    obtain ⟨a, ha, hba⟩ := hb
    rw [if_pos (hpr a ha)] at hba
    subst hba
    rfl

/-- Witness for C3 (amended): one slot, one completed render, crafted
configuration active afterwards. -/
theorem printHelp_normal_completion_restores_crafted_witness :
    (∀ a ∈ [sampleAction], a.provided_restored = false) ∧
    (∀ b ∈ [restore_crafted (restore_provided sampleAction)],
      b.activeConfig = b.craftedConfig) :=
  ⟨by decide,
    ((printHelp_normal_completion_restores_crafted [sampleAction]
      [restore_crafted (restore_provided sampleAction)] (by decide)).1 rfl).1⟩

end ArgparsePrompt
